import Mathlib

/-!
Verification of the market-analyst repository core against its specification.

The Python sources are shallowly embedded as executable Lean definitions:

* `backend/data/cot.py`  — COT ingestion and validation (cache validity,
  row parsing, refresh) over an explicit minutes-since-epoch clock and the
  raw CSV rows as `List (List String)`.
* `backend/agents/orchestrator.py` — the macro regime classifier and the
  report renderer over an explicit `RState` record.
* `backend/models/llm.py` — the three-tier JSON extraction and the
  canonical degraded synthesis result, over a from-scratch JSON parser
  modelling Python `json.loads`.
* `backend/data/futures.py` — the gamma classifier.
* `backend/data/fred.py` — the indicator value / prior / change logic.

Modelling conventions, used throughout:
* Python floats are modelled as exact rationals; every comparison constant
  in the source (30, 5.0, -0.5, 12, 18, 25, 35, 0.1, ...) is exactly
  representable in binary floating point, so order comparisons agree.
* Python truthiness is modelled explicitly (`pytruthy`, `jsonTruthy`):
  None, 0, 0.0, empty string and empty containers are falsy.
* datetimes are minutes since an epoch that falls on Monday 00:00, so that
  `weekday` matches Python `datetime.weekday()` (Monday = 0).
* code paths that would raise in Python (indexing an empty list taken from
  malformed input, numeric formatting of a non-number) are totalised with
  documented defaults; no claim exercises those paths.
-/

/-! ## Shared small utilities -/

/-- Whether `hay` starts with `needle` (character lists). -/
def charsStartWith : List Char → List Char → Bool
  | _, [] => true
  | [], _ :: _ => false
  | c :: cs, d :: ds => c = d && charsStartWith cs ds

/-- Whether `needle` occurs as a contiguous substring of `hay`; models the
Python `in` operator on strings. -/
def charsContain : List Char → List Char → Bool
  | [], needle => needle.isEmpty
  | c :: t, needle => charsStartWith (c :: t) needle || charsContain t needle

/-- Index of the first occurrence of `needle` in `hay` at or after `start`;
models `re`-style left-to-right scanning. -/
def findSubFrom (hay needle : List Char) (start : Nat) : Option Nat :=
  go (hay.drop start) start
where
  go : List Char → Nat → Option Nat
    | [], i => if needle.isEmpty then some i else none
    | c :: t, i => if charsStartWith (c :: t) needle then some i else go t (i + 1)

/-- Strip leading and trailing whitespace, modelling Python `str.strip()`
(ASCII whitespace; the feed is ASCII). -/
def pyStrip (s : String) : String :=
  String.mk (((s.data.dropWhile Char.isWhitespace).reverse.dropWhile Char.isWhitespace).reverse)

/-- Left-pad a string with zeros to width `k`. -/
def padZeros (s : String) (k : Nat) : String :=
  if k ≤ s.length then s else String.mk (List.replicate (k - s.length) '0') ++ s

/-- Round to the nearest integer, ties to even — Python `format` rounding on
exactly-representable values. -/
def roundHalfEvenQ (q : ℚ) : Int :=
  let f : Int := ⌊q⌋
  let r : ℚ := q - (f : ℚ)
  if r < 1 / 2 then f
  else if 1 / 2 < r then f + 1
  else if f % 2 = 0 then f else f + 1

/-- Magnitude of `q` formatted with `prec` digits after the point. -/
def fixedMag (q : ℚ) (prec : Nat) : String :=
  let n : Nat := (roundHalfEvenQ (|q| * ((10 : ℚ) ^ prec))).toNat
  if prec = 0 then toString n
  else toString (n / 10 ^ prec) ++ "." ++ padZeros (toString (n % 10 ^ prec)) prec

/-- Python `f"{q:.prec f}"` on an exactly-represented value. -/
def pyFormatFixed (q : ℚ) (prec : Nat) : String :=
  (if q < 0 then "-" else "") ++ fixedMag q prec

/-- Python `f"{q:+.prec f}"` on an exactly-represented value (sign always
shown, from the sign of the value). -/
def pyFormatSignedFixed (q : ℚ) (prec : Nat) : String :=
  (if q < 0 then "-" else "+") ++ fixedMag q prec

/-- Python truthiness of an optional number: `None` and `0` are falsy. -/
def pytruthy (x : Option ℚ) : Bool :=
  match x with
  | none => false
  | some q => q != 0

/-- Lower-cased character list of a string, modelling Python `str.lower()`
on ASCII text. -/
def lowerChars (s : String) : List Char := s.data.map Char.toLower

/-- Split a character list on a separator character (Python `str.split(sep)`
for a single-character separator). -/
def splitOnChar (sep : Char) : List Char → List (List Char)
  | [] => [[]]
  | c :: t =>
    let rest := splitOnChar sep t
    if c = sep then [] :: rest
    else
      match rest with
      | [] => [[c]]
      | g :: gs => (c :: g) :: gs

/-! ## C1 — positioning cache validity (`CotClient._is_cache_valid`)

Times are minutes since an epoch lying on a Monday 00:00, so
`weekdayOf` matches Python `datetime.weekday()` (Monday = 0, Friday = 4).
`datetime.replace(hour=16, minute=0, second=0, microsecond=0)` is modelled
at minute granularity as day start plus 960 minutes. -/

/-- Python `datetime.weekday()` of a minutes-since-Monday-epoch time. -/
def weekdayOf (t : Nat) : Nat := (t / 1440) % 7

/-- Start of the calendar day containing `t`. -/
def dayStartOf (t : Nat) : Nat := (t / 1440) * 1440

/-- The `friday_4pm` value computed inside `_is_cache_valid`: today at 16:00,
shifted back to Friday when today is Saturday or Sunday. -/
def friday4pmOf (now : Nat) : Nat :=
  let f := dayStartOf now + 16 * 60
  if 4 < weekdayOf now then f - (weekdayOf now - 4) * 1440 else f

/-- Models `CotClient._is_cache_valid`: `False` without a timestamp; `False` when the
cache is more than 7 days old; when today is Friday, Saturday or Sunday,
`False` when the cache timestamp precedes this week Friday 16:00 and `now` is
at or past it; `True` otherwise. -/
def is_cache_valid (cacheTimestamp : Option Nat) (now : Nat) : Bool :=
  match cacheTimestamp with
  | none => false
  | some ts =>
    if (7 * 1440 : Int) < (now : Int) - (ts : Int) then false
    else if 4 ≤ weekdayOf now then
      if ts < friday4pmOf now && friday4pmOf now ≤ now then false else true
    else true

/-- The most recent Friday-16:00 instant at or before `now` (well defined for
`now ≥ 6720`, i.e. from the first Friday 16:00 of the epoch on). -/
def mostRecentFridayCutover (now : Nat) : Nat :=
  ((now - 6720) / 10080) * 10080 + 6720

/-- Cache validity as the claim words it: age at most 7 days, and the current
time precedes the most recent Friday 16:00 cutover or the cache timestamp is
after that cutover. -/
def claimCacheValid (ts now : Nat) : Bool :=
  decide ((now : Int) - (ts : Int) ≤ 7 * 1440) &&
    (decide (now < mostRecentFridayCutover now) ||
      decide (mostRecentFridayCutover now < ts))

/-- Friday 16:00 of the Monday-to-Sunday week containing `now`. -/
def currentWeekFridayCutover (now : Nat) : Nat := (now / 10080) * 10080 + 6720

/-- C1 counterexample. At `now` = Monday 10:00 of week 1 (minute 10680) the
most recent Friday 16:00 cutover is minute 6720, and a cache refreshed the
previous Thursday 12:00 (minute 5040, age under 4 days) precedes that cutover;
the claim therefore calls it stale, but `_is_cache_valid` returns `True`
because the cutover branch only runs when `weekday() >= 4`. -/
theorem c1_counterexample :
    is_cache_valid (some 5040) 10680 = true ∧ claimCacheValid 5040 10680 = false := by
  constructor <;> decide

/-- C1 (amended): the positioning cache is valid exactly when its age is at
most 7 days AND (the current time is before Friday 16:00 of the current
Monday-to-Sunday week, OR the cache timestamp is at or after that instant).
Equivalently, the forced-stale rule applies only from Friday 16:00 through
Sunday of the same week, not on Monday-to-Thursday times that are past the
previous week cutover. -/
theorem c1_amended_thm (ts now : Nat) :
    is_cache_valid (some ts) now =
      (decide ((now : Int) - (ts : Int) ≤ 7 * 1440) &&
        (decide (now < currentWeekFridayCutover now) ||
          decide (currentWeekFridayCutover now ≤ ts))) := by
  have hdd : now / 1440 / 7 = now / 10080 := by
    rw [Nat.div_div_eq_div_mul]
  rw [Bool.eq_iff_iff]
  simp only [is_cache_valid, friday4pmOf, weekdayOf, dayStartOf, currentWeekFridayCutover,
    Bool.and_eq_true, Bool.or_eq_true, decide_eq_true_eq]
  repeat' split
  all_goals first
  | exact iff_of_false (by simp) (by omega)
  | exact iff_of_true rfl (by omega)

/-! ## C2 / C6 — COT ingestion (`CotClient._parse_int`, `_parse_cot_row`,
`_refresh_data`)

The HTTP fetch and the stdlib CSV reader are external collaborators; the
refresh is modelled from the list of CSV rows (`List (List String)`) it
iterates. `_analyze_positioning` only adds derived display fields to the
accepted dict and never alters the fields modelled here, so the accepted map
is modelled as an insertion-ordered association list of `CotRecord`s. -/

/-- Value of a non-empty all-digit character list. -/
def digitsToNat (cs : List Char) : Option Nat :=
  if cs.isEmpty then none
  else if cs.all Char.isDigit then
    some (cs.foldl (fun a c => a * 10 + (c.toNat - 48)) 0)
  else none

/-- Models `CotClient._parse_int`: strip, drop commas and double quotes, then Python
`int()`; any failure resolves to 0. (Python `int()` additionally accepts
underscores between digits and non-ASCII digits; the feed is plain ASCII
digits, optionally signed.) -/
def parse_int (s : String) : Int :=
  let cleaned := (pyStrip s).data.filter fun c => c != ',' && c != '"'
  match cleaned with
  | '-' :: rest =>
    match digitsToNat rest with
    | some n => -(n : Int)
    | none => 0
  | '+' :: rest =>
    match digitsToNat rest with
    | some n => (n : Int)
    | none => 0
  | l =>
    match digitsToNat l with
    | some n => (n : Int)
    | none => 0

/-- Models `CotClient.ASSET_MAPPINGS` in source (= Python dict insertion) order. -/
def asset_mappings : List (String × String) :=
  [("CRUDE OIL, LIGHT SWEET - NEW YORK MERCANTILE EXCHANGE", "Crude Oil"),
   ("GOLD - COMMODITY EXCHANGE INC.", "Gold"),
   ("EURO FX - CHICAGO MERCANTILE EXCHANGE", "EUR/USD"),
   ("E-MINI S&P 500 - CHICAGO MERCANTILE EXCHANGE", "S&P 500"),
   ("10-YEAR U.S. TREASURY NOTES - CHICAGO BOARD OF TRADE", "10-Year Treasury"),
   ("CRUDE OIL, LIGHT SWEET", "Crude Oil"),
   ("GOLD", "Gold"),
   ("EURO FX", "EUR/USD"),
   ("E-MINI S&P 500", "S&P 500"),
   ("10-YEAR U.S. TREASURY NOTES", "10-Year Treasury"),
   ("10 YEAR U.S. TREASURY NOTES", "10-Year Treasury")]

/-- First mapping entry whose key is a case-insensitive substring of the
market name (first matching table entry wins). -/
def assetLookup (market_name : String) : Option String :=
  (asset_mappings.find? fun p =>
    charsContain (lowerChars market_name) (lowerChars p.1)).map Prod.snd

/-- Models successful `datetime.strptime(date_str, "%Y-%m-%d")`: three
dash-separated all-digit fields with month in 1..12 and day in 1..31 (exact
per-month day counts are abstracted; no claim depends on the date field). -/
def is_iso_date (s : String) : Bool :=
  match splitOnChar '-' s.data with
  | [y, m, d] =>
    (!y.isEmpty && y.all Char.isDigit) &&
    (!m.isEmpty && m.all Char.isDigit) &&
    (!d.isEmpty && d.all Char.isDigit) &&
    (1 ≤ (digitsToNat m).getD 0 && (digitsToNat m).getD 0 ≤ 12) &&
    (1 ≤ (digitsToNat d).getD 0 && (digitsToNat d).getD 0 ≤ 31)
  | _ => false

/-- A parsed COT positioning record (the dict built by `_parse_cot_row`). -/
structure CotRecord where
  asset : String
  cftc_name : String
  date : String
  open_interest : Int
  noncommercial_long : Int
  noncommercial_short : Int
  noncommercial_net : Int
  commercial_long : Int
  commercial_short : Int
  commercial_net : Int
deriving DecidableEq

/-- The validation tail of `_parse_cot_row`: derive the nets, apply the three
invariant guards (`open_interest <= 0`, `abs(noncomm_net) > open_interest`,
`abs(comm_net) > open_interest`) and build the record dict. -/
def mkCotRecord (our_asset_name market_name report_date : String)
    (open_interest noncomm_long noncomm_short comm_long comm_short : Int) :
    Option CotRecord :=
  let noncomm_net := noncomm_long - noncomm_short
  let comm_net := comm_long - comm_short
  if open_interest ≤ 0 then none
  else if open_interest < (noncomm_net.natAbs : Int) then none
  else if open_interest < (comm_net.natAbs : Int) then none
  else
    some { asset := our_asset_name, cftc_name := market_name,
           date := report_date, open_interest := open_interest,
           noncommercial_long := noncomm_long,
           noncommercial_short := noncomm_short,
           noncommercial_net := noncomm_net, commercial_long := comm_long,
           commercial_short := comm_short, commercial_net := comm_net }

/-- Models `CotClient._parse_cot_row`. `today` models `datetime.now()` formatted as
`%Y-%m-%d` (used only as the fallback report date). -/
def parse_cot_row (today : String) (row : List String) : Option CotRecord :=
  if row.length < 10 then none
  else
    let market_name := pyStrip (row.getD 0 "")
    if charsStartWith market_name.data "Market".data || market_name.data.isEmpty then none
    else
      match assetLookup market_name with
      | none => none
      | some our_asset_name =>
        let date_str := pyStrip (row.getD 2 "")
        mkCotRecord our_asset_name market_name
          (if is_iso_date date_str then date_str else today)
          (if 7 < row.length then parse_int (row.getD 7 "") else 0)
          (if 8 < row.length then parse_int (row.getD 8 "") else 0)
          (if 9 < row.length then parse_int (row.getD 9 "") else 0)
          (if 11 < row.length then parse_int (row.getD 11 "") else 0)
          (if 12 < row.length then parse_int (row.getD 12 "") else 0)

/-- The row loop of `_refresh_data`: accepted rows accumulate in first-seen
order; later rows for an already-seen asset are dropped. -/
def accumulate_rows (today : String) :
    List (List String) → List (String × CotRecord) → List (String × CotRecord)
  | [], acc => acc
  | row :: rest, acc =>
    match parse_cot_row today row with
    | some r =>
      if acc.any fun q => q.1 = r.asset then accumulate_rows today rest acc
      else accumulate_rows today rest (acc ++ [(r.asset, r)])
    | none => accumulate_rows today rest acc

/-- Models `CotClient._refresh_data` from the CSV rows of the feed: the accepted map,
or the fatal zero-rows error. -/
def refresh_data (today : String) (rows : List (List String)) :
    Except String (List (String × CotRecord)) :=
  let parsed := accumulate_rows today rows []
  if parsed.isEmpty then
    Except.error
      "Failed to parse any COT data from CFTC. The data format may have changed."
  else Except.ok parsed

/-- Whether a refresh outcome is the fatal error. -/
def exceptIsError : Except String (List (String × CotRecord)) → Bool
  | Except.error _ => true
  | Except.ok _ => false

/-- A row accepted by `_parse_cot_row` satisfies the three invariants. -/
theorem parse_cot_row_invariants (today : String) (row : List String)
    (r : CotRecord) (h : parse_cot_row today row = some r) :
    0 < r.open_interest ∧ (r.noncommercial_net.natAbs : Int) ≤ r.open_interest ∧
      (r.commercial_net.natAbs : Int) ≤ r.open_interest := by
  have hmk : ∀ (a b c : String) (oi ncl ncs cl cs : Int),
      mkCotRecord a b c oi ncl ncs cl cs = some r →
      0 < r.open_interest ∧ (r.noncommercial_net.natAbs : Int) ≤ r.open_interest ∧
        (r.commercial_net.natAbs : Int) ≤ r.open_interest := by
    intro a b c oi ncl ncs cl cs hmk
    simp only [mkCotRecord] at hmk
    split at hmk
    · simp at hmk
    · split at hmk
      · simp at hmk
      · split at hmk
        · simp at hmk
        · rw [Option.some_inj] at hmk
          subst hmk
          dsimp only
          omega
  simp only [parse_cot_row] at h
  split at h
  · simp at h
  · split at h
    · simp at h
    · split at h
      · simp at h
      · exact hmk _ _ _ _ _ _ _ _ h

/-- Every entry of the accumulated map is an old entry or the image of a row
accepted by `_parse_cot_row`. -/
theorem accumulate_rows_mem (today : String) :
    ∀ (rows : List (List String)) (acc : List (String × CotRecord))
      (p : String × CotRecord), p ∈ accumulate_rows today rows acc →
      p ∈ acc ∨ ∃ row, row ∈ rows ∧ parse_cot_row today row = some p.2 := by
  intro rows
  induction rows with
  | nil => intro acc p hp; exact Or.inl hp
  | cons row rest ih =>
    intro acc p hp
    cases hparse : parse_cot_row today row with
    | none =>
      simp only [accumulate_rows, hparse] at hp
      rcases ih _ _ hp with h | ⟨row2, h2, h3⟩
      · exact Or.inl h
      · exact Or.inr ⟨row2, List.mem_cons_of_mem _ h2, h3⟩
    | some r =>
      simp only [accumulate_rows, hparse] at hp
      by_cases hdup : (acc.any fun q => q.1 = r.asset) = true
      · rw [if_pos hdup] at hp
        rcases ih _ _ hp with h | ⟨row2, h2, h3⟩
        · exact Or.inl h
        · exact Or.inr ⟨row2, List.mem_cons_of_mem _ h2, h3⟩
      · rw [if_neg hdup] at hp
        rcases ih _ _ hp with h | ⟨row2, h2, h3⟩
        · rcases List.mem_append.mp h with h1 | h1
          · exact Or.inl h1
          · rw [List.mem_singleton] at h1
            subst h1
            exact Or.inr ⟨row, List.mem_cons_self _ _, hparse⟩
        · exact Or.inr ⟨row2, List.mem_cons_of_mem _ h2, h3⟩

/-- The accumulated map is empty exactly when it started empty and no row of
the feed was accepted. -/
theorem accumulate_rows_isEmpty (today : String) :
    ∀ (rows : List (List String)) (acc : List (String × CotRecord)),
      (accumulate_rows today rows acc).isEmpty =
        (acc.isEmpty && rows.all fun row => (parse_cot_row today row).isNone) := by
  intro rows
  induction rows with
  | nil => intro acc; simp [accumulate_rows]
  | cons row rest ih =>
    intro acc
    cases hparse : parse_cot_row today row with
    | none => simp only [accumulate_rows, hparse, List.all_cons]; simp [ih]
    | some r =>
      simp only [accumulate_rows, hparse, List.all_cons]
      by_cases hdup : (acc.any fun q => q.1 = r.asset) = true
      · rw [if_pos hdup, ih]
        have hne : acc.isEmpty = false := by
          cases acc
          · simp at hdup
          · rfl
        simp [hne]
      · rw [if_neg hdup, ih]
        simp

/-- C2: every PositioningRecord materialized into the accepted record map by a
refresh has `open_interest > 0`, `|noncommercial_net| ≤ open_interest` and
`|commercial_net| ≤ open_interest`; rows violating any invariant are rejected
by `_parse_cot_row` and never appear in the accepted set. -/
theorem c2_accepted_records_invariants (today : String) (rows : List (List String))
    (m : List (String × CotRecord)) (h : refresh_data today rows = Except.ok m) :
    ∀ p : String × CotRecord, p ∈ m →
      0 < p.2.open_interest ∧
        (p.2.noncommercial_net.natAbs : Int) ≤ p.2.open_interest ∧
        (p.2.commercial_net.natAbs : Int) ≤ p.2.open_interest := by
  intro p hp
  simp only [refresh_data] at h
  split at h
  · simp at h
  · rw [Except.ok.injEq] at h
    subst h
    rcases accumulate_rows_mem today rows [] p hp with h1 | ⟨row, _, hrow⟩
    · simp at h1
    · exact parse_cot_row_invariants today row p.2 hrow

/-- A concrete accepted gold row used as the C2 witness. -/
def goldRow : List String :=
  ["GOLD - COMMODITY EXCHANGE INC.", "001602", "2024-01-02", "", "", "", "",
   "1000", "300", "100", "", "200", "150"]

/-- The record `_parse_cot_row` builds from `goldRow`. -/
def goldRecord : CotRecord :=
  { asset := "Gold", cftc_name := "GOLD - COMMODITY EXCHANGE INC.",
    date := "2024-01-02", open_interest := 1000, noncommercial_long := 300,
    noncommercial_short := 100, noncommercial_net := 200, commercial_long := 200,
    commercial_short := 150, commercial_net := 50 }

/-- C2 witness: the invariants instantiated on the concrete accepted record of
a one-row refresh. -/
theorem c2_witness :
    0 < goldRecord.open_interest ∧
      (goldRecord.noncommercial_net.natAbs : Int) ≤ goldRecord.open_interest ∧
      (goldRecord.commercial_net.natAbs : Int) ≤ goldRecord.open_interest :=
  c2_accepted_records_invariants "2024-01-02" [goldRow] [("Gold", goldRecord)]
    (by rfl) ("Gold", goldRecord) (List.Mem.head _)

/-- C6: a refresh is the fatal error exactly when no row of the feed is
accepted; malformed numeric text resolves to 0 rather than a parse failure
(`"N/A"`, `""` and comma-grouped digits shown), and whenever at least one row
is accepted the refresh succeeds. -/
theorem c6_zero_rows_fatal_iff :
    (∀ (today : String) (rows : List (List String)),
        exceptIsError (refresh_data today rows) =
          rows.all fun row => (parse_cot_row today row).isNone) ∧
      parse_int "N/A" = 0 ∧ parse_int "" = 0 ∧ parse_int "12,345" = 12345 := by
  refine ⟨?_, by decide, by decide, by decide⟩
  intro today rows
  simp only [refresh_data]
  have h := accumulate_rows_isEmpty today rows []
  simp only [List.isEmpty_nil, Bool.true_and] at h
  split
  · rename_i hEmpty
    simp only [exceptIsError]
    rw [← h, hEmpty]
  · rename_i hNE
    simp only [exceptIsError]
    rw [← h]
    simp only [Bool.not_eq_true] at hNE
    rw [hNE]

/-! ## C3 — macro regime classifier (`MacroEconomist._determine_regime`)

Arguments are the six indicator values in source read order, each being
`risk.get(series, {}).get("value")` / `data.get(series, {}).get("value")`,
i.e. `None` when the series or its value is missing. Python `if x and x > k`
is modelled as truthiness and the comparison. -/

/-- Models `MacroEconomist._determine_regime`. -/
def determine_regime (vix hy_spread curve_10y2y gdp cpi unemployment : Option ℚ) :
    String :=
  if pytruthy vix && decide (vix.getD 0 > 30) then
    "CRISIS - VIX elevated, risk-off dominant"
  else if pytruthy hy_spread && decide (hy_spread.getD 0 > 5) then
    "RISK_OFF - Credit stress, HY spreads widening"
  else if pytruthy curve_10y2y && decide (curve_10y2y.getD 0 < -(1 : ℚ) / 2) then
    "RISK_OFF - Yield curve deeply inverted"
  else if pytruthy cpi && decide (cpi.getD 0 > 7 / 2) then
    if pytruthy unemployment && decide (unemployment.getD 0 < 9 / 2) then
      "TRANSITIONAL - Late-cycle, inflationary pressures"
    else "RISK_OFF - Stagflationary risk"
  else if pytruthy gdp && decide (gdp.getD 0 > 5 / 2) then
    if pytruthy vix && decide (vix.getD 0 < 15) then
      "RISK_ON - Goldilocks, low vol expansion"
    else "RISK_ON - Early-to-mid cycle expansion"
  else "TRANSITIONAL - Mixed signals"

/-- C3: the classifier is a pure total function evaluating its rules in order;
at VIX=35, HY spread=6.0, curve=-0.6 rule 1 pre-empts rules 2 and 3 and the
result is the CRISIS label whatever the remaining inputs; a missing input
never triggers the rule that reads it (each rule label is unreachable when its
input is `None`), and with every input missing the fallthrough TRANSITIONAL
label is returned. -/
theorem c3_macro_regime_classifier :
    (∀ gdp cpi unemployment : Option ℚ,
        determine_regime (some 35) (some 6) (some (-(3 : ℚ) / 5)) gdp cpi unemployment =
          "CRISIS - VIX elevated, risk-off dominant")
  ∧ (∀ hy cu gdp cpi un : Option ℚ,
        determine_regime none hy cu gdp cpi un ≠
          "CRISIS - VIX elevated, risk-off dominant")
  ∧ (∀ vx cu gdp cpi un : Option ℚ,
        determine_regime vx none cu gdp cpi un ≠
          "RISK_OFF - Credit stress, HY spreads widening")
  ∧ (∀ vx hy gdp cpi un : Option ℚ,
        determine_regime vx hy none gdp cpi un ≠
          "RISK_OFF - Yield curve deeply inverted")
  ∧ (∀ vx hy cu gdp un : Option ℚ,
        determine_regime vx hy cu gdp none un ≠
          "TRANSITIONAL - Late-cycle, inflationary pressures")
  ∧ (∀ vx hy cu gdp un : Option ℚ,
        determine_regime vx hy cu gdp none un ≠ "RISK_OFF - Stagflationary risk")
  ∧ (∀ vx hy cu cpi un : Option ℚ,
        determine_regime vx hy cu none cpi un ≠
          "RISK_ON - Goldilocks, low vol expansion")
  ∧ (∀ vx hy cu cpi un : Option ℚ,
        determine_regime vx hy cu none cpi un ≠
          "RISK_ON - Early-to-mid cycle expansion")
  ∧ (∀ vx hy cu gdp cpi : Option ℚ,
        determine_regime vx hy cu gdp cpi none ≠
          "TRANSITIONAL - Late-cycle, inflationary pressures")
  ∧ determine_regime none none none none none none = "TRANSITIONAL - Mixed signals" := by
  refine ⟨?_, ?_, ?_, ?_, ?_, ?_, ?_, ?_, ?_, by decide⟩
  · intro gdp cpi un
    unfold determine_regime
    rw [if_pos (by decide)]
  all_goals
    intros
  all_goals
    unfold determine_regime
  all_goals
    repeat' split
  all_goals
    first
    | decide
    | (exact absurd
        (by assumption :
          (pytruthy (none : Option ℚ) &&
            decide ((none : Option ℚ).getD 0 > 7 / 2)) = true)
        (by decide))

/-! ## C8 — gamma classifier (`FuturesDataClient._calculate_gamma_from_vix`) -/

/-- The threshold waterfall of `_calculate_gamma_from_vix`: raw gamma regime,
sput risk, dealer posture and notes, before normalization. -/
def calc_gamma_branch (vix : ℚ) : String × String × String × List String :=
  if vix < 12 then
    ("SHORT", "HIGH", "SHORT_GAMMA",
     ["VIX < 12: Options sellers dominating, short gamma regime",
      "Risk: Vol spike would cause rapid dealer hedging"])
  else if vix < 18 then
    ("NEUTRAL_SLIGHT_SHORT", "MEDIUM", "FLAT_SLIGHT_SHORT",
     ["VIX 12-18: Normal volatility, balanced positioning"])
  else if vix < 25 then
    ("NEUTRAL", "MEDIUM", "FLAT", ["VIX 18-25: Standard volatility environment"])
  else if vix < 35 then
    ("NEUTRAL_SLIGHT_LONG", "LOW", "FLAT_SLIGHT_LONG",
     ["VIX 25-35: Elevated volatility, some dealers long gamma"])
  else
    ("LONG", "LOW", "LONG_GAMMA",
     ["VIX > 35: Crisis volatility, dealers likely long gamma (protection)"])

/-- Models `FuturesDataClient._calculate_gamma_from_vix`: the waterfall followed by
the normalization collapsing any raw regime containing "SLIGHT" to NEUTRAL. -/
def calculate_gamma_from_vix (vix : ℚ) : String × String × String × List String :=
  match calc_gamma_branch vix with
  | (gamma, sput, dealer, notes) =>
    (if charsContain gamma.data "SLIGHT".data then "NEUTRAL" else gamma,
     sput, dealer, notes)

/-- The raw gamma regime is always one of the five waterfall labels. -/
theorem calc_gamma_branch_raw_cases (vix : ℚ) :
    (calc_gamma_branch vix).1 = "SHORT" ∨
      (calc_gamma_branch vix).1 = "NEUTRAL_SLIGHT_SHORT" ∨
      (calc_gamma_branch vix).1 = "NEUTRAL" ∨
      (calc_gamma_branch vix).1 = "NEUTRAL_SLIGHT_LONG" ∨
      (calc_gamma_branch vix).1 = "LONG" := by
  unfold calc_gamma_branch
  repeat' split
  all_goals decide

/-- C8: the waterfall on thresholds 12/18/25/35 yields one of five raw
regimes; the normalized output collapses the two "SLIGHT" regimes to NEUTRAL
and is always one of SHORT/NEUTRAL/LONG; VIX=10 normalizes to SHORT, VIX=40 to
LONG, VIX=20 to NEUTRAL; boundary values land in the upper bucket. -/
theorem c8_gamma_classifier :
    (∀ vix : ℚ, (calc_gamma_branch vix).1 = "SHORT" ∨
        (calc_gamma_branch vix).1 = "NEUTRAL_SLIGHT_SHORT" ∨
        (calc_gamma_branch vix).1 = "NEUTRAL" ∨
        (calc_gamma_branch vix).1 = "NEUTRAL_SLIGHT_LONG" ∨
        (calc_gamma_branch vix).1 = "LONG")
  ∧ (∀ vix : ℚ, (calculate_gamma_from_vix vix).1 =
        (if charsContain (calc_gamma_branch vix).1.data "SLIGHT".data then "NEUTRAL"
         else (calc_gamma_branch vix).1))
  ∧ (calculate_gamma_from_vix 10).1 = "SHORT"
  ∧ (calculate_gamma_from_vix 40).1 = "LONG"
  ∧ (calculate_gamma_from_vix 20).1 = "NEUTRAL"
  ∧ (calc_gamma_branch 12).1 = "NEUTRAL_SLIGHT_SHORT"
  ∧ (calc_gamma_branch 18).1 = "NEUTRAL"
  ∧ (calc_gamma_branch 25).1 = "NEUTRAL_SLIGHT_LONG"
  ∧ (calc_gamma_branch 35).1 = "LONG"
  ∧ (∀ vix : ℚ, (calculate_gamma_from_vix vix).1 = "SHORT" ∨
        (calculate_gamma_from_vix vix).1 = "NEUTRAL" ∨
        (calculate_gamma_from_vix vix).1 = "LONG") := by
  refine ⟨calc_gamma_branch_raw_cases, fun vix => rfl, by decide, by decide, by decide,
    by decide, by decide, by decide, by decide, ?_⟩
  intro vix
  have h2 : (calculate_gamma_from_vix vix).1 =
      (if charsContain (calc_gamma_branch vix).1.data "SLIGHT".data then "NEUTRAL"
       else (calc_gamma_branch vix).1) := rfl
  rw [h2]
  rcases calc_gamma_branch_raw_cases vix with h | h | h | h | h <;> rw [h] <;> decide

/-! ## C9 — FRED series change (`FredClient.get_series`, lines 63-83) -/

/-- Value of a digit list (0 when empty). -/
def digitsVal (cs : List Char) : Nat :=
  cs.foldl (fun a c => a * 10 + (c.toNat - 48)) 0

/-- Rational power of ten with integer exponent. -/
def qPow10 (e : Int) : ℚ :=
  if 0 ≤ e then (10 : ℚ) ^ e.toNat else 1 / (10 : ℚ) ^ (-e).toNat

/-- Syntactic part of Python `float(s)` on plain decimal or scientific
notation: strip, optional sign, digits with optional decimal point (at least
one digit overall), optional exponent. Returns
(negative?, integer digits value, fraction digits value, fraction length,
exponent), or `none` when `float()` would raise. (`inf`/`nan` literals and
underscore separators are outside the model; FRED observation values are
plain decimals or the "." placeholder.) -/
def pyFloatParts (s : String) : Option (Bool × Nat × Nat × Nat × Int) :=
  let t := (pyStrip s).data
  let neg : Bool :=
    match t with
    | '-' :: _ => true
    | _ => false
  let t1 :=
    match t with
    | '-' :: r => r
    | '+' :: r => r
    | _ => t
  let ipart := t1.takeWhile Char.isDigit
  let t2 := t1.dropWhile Char.isDigit
  let fpart :=
    match t2 with
    | '.' :: r => r.takeWhile Char.isDigit
    | _ => []
  let t3 :=
    match t2 with
    | '.' :: r => r.dropWhile Char.isDigit
    | _ => t2
  if ipart.isEmpty && fpart.isEmpty then none
  else
    match t3 with
    | [] => some (neg, digitsVal ipart, digitsVal fpart, fpart.length, 0)
    | e :: r =>
      if e = 'e' ∨ e = 'E' then
        let esgn : Int :=
          match r with
          | '-' :: _ => -1
          | _ => 1
        let r1 :=
          match r with
          | '-' :: r2 => r2
          | '+' :: r2 => r2
          | _ => r
        if r1.isEmpty || !(r1.all Char.isDigit) then none
        else some (neg, digitsVal ipart, digitsVal fpart, fpart.length,
          esgn * (digitsVal r1 : Int))
      else none

/-- Rational value of parsed float parts. -/
def pyFloatVal : Bool × Nat × Nat × Nat × Int → ℚ
  | (neg, i, f, k, e) =>
    (if neg then -1 else 1) * ((i : ℚ) + (f : ℚ) / (10 : ℚ) ^ k) * qPow10 e

/-- Python `float(s)` (see `pyFloatParts`). -/
def pyFloat (s : String) : Option ℚ :=
  (pyFloatParts s).map pyFloatVal

/-- The observation-to-value step of `FredClient.get_series`: `value` is None
for the "." placeholder, else `float(latest)`; likewise for the optional prior
observation; a float conversion failure sets BOTH to None (the shared
try/except). -/
def fred_values (latestStr : String) (priorStr : Option String) :
    Option ℚ × Option ℚ :=
  let v : Except Unit (Option ℚ) :=
    if latestStr = "." then Except.ok none
    else
      match pyFloat latestStr with
      | some q => Except.ok (some q)
      | none => Except.error ()
  let p : Except Unit (Option ℚ) :=
    match priorStr with
    | none => Except.ok none
    | some ps =>
      if ps = "." then Except.ok none
      else
        match pyFloat ps with
        | some q => Except.ok (some q)
        | none => Except.error ()
  match v, p with
  | Except.ok v1, Except.ok p1 => (v1, p1)
  | _, _ => (none, none)

/-- The change field of `FredClient.get_series`:
`value - prior_value if value and prior_value else None`. -/
def fred_change (value prior_value : Option ℚ) : Option ℚ :=
  if pytruthy value && pytruthy prior_value then
    some (value.getD 0 - prior_value.getD 0)
  else none

/-- The change is non-null exactly when both values are non-null and nonzero
(Python truthiness makes a present 0.0 behave like a missing value). -/
theorem fred_change_isSome (v p : Option ℚ) :
    (fred_change v p).isSome =
      (v.isSome && p.isSome && !decide (v.getD 0 = 0) && !decide (p.getD 0 = 0)) := by
  cases v <;> cases p <;> simp [fred_change, pytruthy] <;> split <;> simp_all

/-- C9: for every fetched series the computed change is non-null iff both the
latest and prior values are non-null AND both are nonzero; in particular a
latest value of exactly 0.0 with a present prior yields a null change. -/
theorem c9_fred_change_nonnull_iff :
    (∀ (latestStr : String) (priorStr : Option String),
        (fred_change (fred_values latestStr priorStr).1
            (fred_values latestStr priorStr).2).isSome =
          ((fred_values latestStr priorStr).1.isSome &&
            (fred_values latestStr priorStr).2.isSome &&
            !decide ((fred_values latestStr priorStr).1.getD 0 = 0) &&
            !decide ((fred_values latestStr priorStr).2.getD 0 = 0)))
  ∧ (fred_values "0.0" (some "3.2")).1 = some 0
  ∧ (fred_values "0.0" (some "3.2")).2 = some (16 / 5)
  ∧ fred_change (fred_values "0.0" (some "3.2")).1
      (fred_values "0.0" (some "3.2")).2 = none := by
  have h0 : pyFloat "0.0" = some 0 := by
    have hp : pyFloatParts "0.0" = some (false, 0, 0, 1, 0) := by decide
    simp [pyFloat, hp, pyFloatVal, qPow10]
  have h2 : pyFloat "3.2" = some (16 / 5) := by
    have hp : pyFloatParts "3.2" = some (false, 3, 2, 1, 0) := by decide
    simp [pyFloat, hp, pyFloatVal, qPow10]
    norm_num
  have hv : fred_values "0.0" (some "3.2") = (some 0, some (16 / 5)) := by
    simp [fred_values, h0, h2]
  refine ⟨fun ls ps => fred_change_isSome _ _, ?_, ?_, ?_⟩
  · rw [hv]
  · rw [hv]
  · rw [hv]
    simp [fred_change, pytruthy]

/-! ## C4 — synthesis gateway JSON recovery (`LLMClient._extract_json`,
`LLMClient.generate_with_schema`)

`Json` models the values `json.loads` produces: Python ints and floats are
kept apart (they print differently), plus the Python extensions NaN and
signed Infinity. Numbers are exact rationals: Python converts to IEEE floats with
rounding, but parse success/failure and every value a claim touches agree.
Known narrowings, none reachable by a claim: lone UTF-16 surrogate escapes are
rejected (Python keeps them; Lean `Char` cannot), and huge exponents are kept
exact rather than overflowing to infinity. -/

/-- JSON values as parsed by Python `json.loads`. -/
inductive Json where
  | null
  | bool (b : Bool)
  | numInt (n : Int)
  | numFloat (q : ℚ)
  | nan
  | inf (neg : Bool)
  | str (s : String)
  | arr (elems : List Json)
  | obj (fields : List (String × Json))

/-- JSON whitespace (space, tab, newline, carriage return). -/
def jsonSkipWs (s : List Char) : List Char :=
  s.dropWhile fun c => c = ' ' || c = '\t' || c = '\n' || c = '\r'

/-- Hex digit value. -/
def hexVal (c : Char) : Option Nat :=
  if '0' ≤ c ∧ c ≤ '9' then some (c.toNat - 48)
  else if 'a' ≤ c ∧ c ≤ 'f' then some (c.toNat - 87)
  else if 'A' ≤ c ∧ c ≤ 'F' then some (c.toNat - 55)
  else none

/-- Value of four hex digits. -/
def hex4 (a b c d : Char) : Option Nat := do
  let x ← hexVal a
  let y ← hexVal b
  let z ← hexVal c
  let w ← hexVal d
  pure (((x * 16 + y) * 16 + z) * 16 + w)

/-- Prepend a character to the accumulated content of a string parse. -/
def consFst (c : Char) : Option (List Char × List Char) → Option (List Char × List Char)
  | some (cs, r) => some (c :: cs, r)
  | none => none

/-- JSON string contents after the opening quote: decoded characters and the
remaining input past the closing quote. Escapes and the raw-control-character
rejection follow Python json strict mode; UTF-16 surrogate pairs are
combined. -/
def jsonStringChars : Nat → List Char → Option (List Char × List Char)
  | 0, _ => none
  | fuel + 1, s =>
    match s with
    | [] => none
    | '"' :: rest => some ([], rest)
    | '\\' :: esc =>
      match esc with
      | '"' :: r => consFst '"' (jsonStringChars fuel r)
      | '\\' :: r => consFst '\\' (jsonStringChars fuel r)
      | '/' :: r => consFst '/' (jsonStringChars fuel r)
      | 'b' :: r => consFst (Char.ofNat 8) (jsonStringChars fuel r)
      | 'f' :: r => consFst (Char.ofNat 12) (jsonStringChars fuel r)
      | 'n' :: r => consFst '\n' (jsonStringChars fuel r)
      | 'r' :: r => consFst '\r' (jsonStringChars fuel r)
      | 't' :: r => consFst '\t' (jsonStringChars fuel r)
      | 'u' :: a :: b :: c :: d :: r =>
        match hex4 a b c d with
        | none => none
        | some n =>
          if 0xD800 ≤ n ∧ n ≤ 0xDBFF then
            match r with
            | '\\' :: 'u' :: a2 :: b2 :: c2 :: d2 :: r2 =>
              match hex4 a2 b2 c2 d2 with
              | some m =>
                if 0xDC00 ≤ m ∧ m ≤ 0xDFFF then
                  consFst (Char.ofNat (0x10000 + (n - 0xD800) * 0x400 + (m - 0xDC00)))
                    (jsonStringChars fuel r2)
                else none
              | none => none
            | _ => none
          else if 0xDC00 ≤ n ∧ n ≤ 0xDFFF then none
          else consFst (Char.ofNat n) (jsonStringChars fuel r)
      | _ => none
    | c :: rest =>
      if c.toNat < 32 then none
      else consFst c (jsonStringChars fuel rest)

/-- JSON number token per the Python json scanner regex
`(-?(?:0|[1-9]\d*))(\.\d+)?([eE][-+]?\d+)?`: the parsed number (int when
neither fraction nor exponent is present, float otherwise) and the remaining
input. -/
def jsonNumber (s : List Char) : Option (Json × List Char) :=
  let neg : Bool :=
    match s with
    | '-' :: _ => true
    | _ => false
  let s1 :=
    match s with
    | '-' :: r => r
    | _ => s
  match s1 with
  | [] => none
  | c :: _ =>
    if ¬ c.isDigit then none
    else
      let ipart := if c = '0' then [c] else s1.takeWhile Char.isDigit
      let s2 := if c = '0' then s1.tail else s1.dropWhile Char.isDigit
      let fpart :=
        match s2 with
        | '.' :: r => r.takeWhile Char.isDigit
        | _ => []
      let s3 := if fpart.isEmpty then s2 else (s2.tail).dropWhile Char.isDigit
      let epart : Option Int :=
        match s3 with
        | e :: r =>
          if e = 'e' ∨ e = 'E' then
            let esgn : Int :=
              match r with
              | '-' :: _ => -1
              | _ => 1
            let r1 :=
              match r with
              | '-' :: r2 => r2
              | '+' :: r2 => r2
              | _ => r
            let ds := r1.takeWhile Char.isDigit
            if ds.isEmpty then none else some (esgn * (digitsVal ds : Int))
          else none
        | [] => none
      let s4 :=
        match s3 with
        | e :: r =>
          if (e = 'e' ∨ e = 'E') ∧ epart.isSome then
            let r1 :=
              match r with
              | '-' :: r2 => r2
              | '+' :: r2 => r2
              | _ => r
            r1.dropWhile Char.isDigit
          else s3
        | [] => s3
      if fpart.isEmpty ∧ epart.isNone then
        some (Json.numInt ((if neg then -1 else 1) * (digitsVal ipart : Int)), s2)
      else
        let mant : ℚ := (digitsVal ipart : ℚ) + (digitsVal fpart : ℚ) / (10 : ℚ) ^ fpart.length
        some (Json.numFloat ((if neg then (-1 : ℚ) else 1) * mant * qPow10 (epart.getD 0)), s4)

mutual

/-- One JSON value: parse from the input, return the value and the remaining
input. Fuel bounds the recursion depth (each level consumes input). -/
def jsonVal : Nat → List Char → Option (Json × List Char)
  | 0, _ => none
  | fuel + 1, s =>
    let s1 := jsonSkipWs s
    match s1 with
    | '{' :: rest => jsonObjFields fuel rest true []
    | '[' :: rest => jsonArrItems fuel rest true []
    | '"' :: rest =>
      match jsonStringChars (rest.length + 1) rest with
      | some (cs, r) => some (Json.str (String.mk cs), r)
      | none => none
    | 't' :: 'r' :: 'u' :: 'e' :: rest => some (Json.bool true, rest)
    | 'f' :: 'a' :: 'l' :: 's' :: 'e' :: rest => some (Json.bool false, rest)
    | 'n' :: 'u' :: 'l' :: 'l' :: rest => some (Json.null, rest)
    | 'N' :: 'a' :: 'N' :: rest => some (Json.nan, rest)
    | 'I' :: 'n' :: 'f' :: 'i' :: 'n' :: 'i' :: 't' :: 'y' :: rest =>
      some (Json.inf false, rest)
    | '-' :: 'I' :: 'n' :: 'f' :: 'i' :: 'n' :: 'i' :: 't' :: 'y' :: rest =>
      some (Json.inf true, rest)
    | _ => jsonNumber s1

/-- Array items after `[`: `isFirst` allows the immediate `]` of an empty
array; elements accumulate in order. -/
def jsonArrItems : Nat → List Char → Bool → List Json → Option (Json × List Char)
  | 0, _, _, _ => none
  | fuel + 1, s, isFirst, acc =>
    let s1 := jsonSkipWs s
    if isFirst ∧ charsStartWith s1 ["]".get 0] = true then
      some (Json.arr [], s1.tail)
    else
      match jsonVal fuel s1 with
      | none => none
      | some (v, s2) =>
        let s3 := jsonSkipWs s2
        match s3 with
        | ',' :: rest => jsonArrItems fuel rest false (acc ++ [v])
        | ']' :: rest => some (Json.arr (acc ++ [v]), rest)
        | _ => none

/-- Object fields after an opening brace: `isFirst` allows the immediate
closing brace of an empty object; fields accumulate in parse order (later
duplicate keys are resolved at lookup, matching dict later-wins). -/
def jsonObjFields : Nat → List Char → Bool → List (String × Json) →
    Option (Json × List Char)
  | 0, _, _, _ => none
  | fuel + 1, s, isFirst, acc =>
    let s1 := jsonSkipWs s
    if isFirst ∧ charsStartWith s1 ["\x7d".get 0] = true then
      some (Json.obj [], s1.tail)
    else
      match s1 with
      | '"' :: rest =>
        match jsonStringChars (rest.length + 1) rest with
        | none => none
        | some (key, s2) =>
          let s3 := jsonSkipWs s2
          match s3 with
          | ':' :: s4 =>
            match jsonVal fuel s4 with
            | none => none
            | some (v, s5) =>
              let s6 := jsonSkipWs s5
              match s6 with
              | ',' :: s7 => jsonObjFields fuel s7 false (acc ++ [(String.mk key, v)])
              | c :: s7 =>
                if c = "\x7d".get 0 then some (Json.obj (acc ++ [(String.mk key, v)]), s7)
                else none
              | [] => none
          | _ => none
      | _ => none

end

/-- Python `json.loads`: one JSON document, optional surrounding whitespace,
no trailing data. -/
def json_loads (s : String) : Option Json :=
  match jsonVal (2 * s.data.length + 2) s.data with
  | some (v, rest) => if (jsonSkipWs rest).isEmpty then some v else none
  | none => none

/-- Slice between indices `a` (inclusive) and `b` (exclusive). -/
def sliceChars (s : List Char) (a b : Nat) : List Char := (s.take b).drop a

/-- Strip whitespace from both ends (the greedy and lazy whitespace groups
around the fenced-block capture). -/
def stripChars (cs : List Char) : List Char :=
  ((cs.dropWhile Char.isWhitespace).reverse.dropWhile Char.isWhitespace).reverse

/-- The tier-2 regex search of `_extract_json`: earliest three-backtick fence
with an optional `json` tag, lazily captured body, and a closing fence;
scanning resumes past an opening fence that has no closing fence, like
`re.search` trying later match starts. -/
def fencedSearch : Nat → List Char → Nat → Option (List Char)
  | 0, _, _ => none
  | fuel + 1, s, start =>
    match findSubFrom s "```".data start with
    | none => none
    | some i =>
      let afterOpen := i + 3
      let contentStart :=
        if charsStartWith (s.drop afterOpen) "json".data then afterOpen + 4
        else afterOpen
      match findSubFrom s "```".data contentStart with
      | some p => some (stripChars (sliceChars s contentStart p))
      | none => fencedSearch fuel s (i + 1)

/-- Tier 2 of `_extract_json`. -/
def fenced_block (s : List Char) : Option (List Char) :=
  fencedSearch (s.length + 1) s 0

/-- Index of the first occurrence of a character. -/
def firstIdxOf (s : List Char) (c : Char) : Option Nat := findSubFrom s [c] 0

/-- Index of the last occurrence of a character. -/
def lastIdxOf (s : List Char) (c : Char) : Option Nat :=
  (firstIdxOf s.reverse c).map fun i => s.length - 1 - i

/-- Tier 3 of `_extract_json`: the greedy brace-delimited regex match, from
the first opening brace to the last closing brace after it. -/
def brace_substring (s : List Char) : Option (List Char) :=
  match firstIdxOf s ("\x7b".get 0), lastIdxOf s ("\x7d".get 0) with
  | some i, some j => if i < j then some (sliceChars s i (j + 1)) else none
  | _, _ => none

/-- Models `LLMClient._extract_json`: full parse, then fenced code block, then brace
substring; each later tier runs only when the earlier ones fail (a tier whose
regex matches but whose contents do not parse falls through); `none` when all
three fail. -/
def extract_json (response : String) : Option Json :=
  match json_loads response with
  | some v => some v
  | none =>
    match
      (match fenced_block response.data with
       | some g => json_loads (String.mk g)
       | none => none) with
    | some v => some v
    | none =>
      match brace_substring response.data with
      | some g => json_loads (String.mk g)
      | none => none

/-- The canonical degraded result returned by `generate_with_schema` when
extraction fails. -/
def degraded_result (response : String) : Json :=
  Json.obj
    [("executive_summary", Json.str "Failed to parse LLM response"),
     ("regime", Json.obj
        [("label", Json.str "TRANSITIONAL"),
         ("drivers", Json.arr []),
         ("falsifiers", Json.arr [])]),
     ("trades", Json.arr []),
     ("risk_factors", Json.arr []),
     ("positioning_analysis", Json.obj []),
     ("confidence", Json.numFloat 0),
     ("data_quality_issues", Json.arr
        [Json.str ("LLM response was not valid JSON: " ++
          String.mk (response.data.take 500))])]

/-- Models `LLMClient.generate_with_schema` after the model call: the parsed JSON
when extraction succeeds (returned unvalidated), else the canonical degraded
result. Prompt construction and the network call are external collaborators;
`response` is the raw model output. -/
def generate_with_schema (response : String) : Json :=
  match extract_json response with
  | some result => result
  | none => degraded_result response

/-- Python `dict.get(key)` on a parsed JSON object (later duplicate keys win,
as in `json.loads`). -/
def jsonObjGet (fields : List (String × Json)) (k : String) : Option Json :=
  (fields.reverse.find? fun p => p.1 = k).map Prod.snd

/-- Models `dict.get` through a `Json` value (`none` off objects). -/
def jsonGetKey : Json → String → Option Json
  | Json.obj fields, k => jsonObjGet fields k
  | _, _ => none

/-- C4: whenever all three extraction tiers fail, the gateway returns (never
raises) the canonical degraded result: regime label TRANSITIONAL with empty
drivers and falsifiers, empty trade list, empty positioning analysis,
confidence 0.0, and a one-element data_quality_issues list embedding the first
500 characters of the raw response. -/
theorem c4_degraded_synthesis (response : String)
    (h : extract_json response = none) :
    generate_with_schema response = degraded_result response ∧
    jsonGetKey (generate_with_schema response) "regime" =
      some (Json.obj [("label", Json.str "TRANSITIONAL"), ("drivers", Json.arr []),
        ("falsifiers", Json.arr [])]) ∧
    jsonGetKey (generate_with_schema response) "trades" = some (Json.arr []) ∧
    jsonGetKey (generate_with_schema response) "positioning_analysis" =
      some (Json.obj []) ∧
    jsonGetKey (generate_with_schema response) "confidence" =
      some (Json.numFloat 0) ∧
    jsonGetKey (generate_with_schema response) "data_quality_issues" =
      some (Json.arr [Json.str ("LLM response was not valid JSON: " ++
        String.mk (response.data.take 500))]) := by
  have hg : generate_with_schema response = degraded_result response := by
    unfold generate_with_schema
    rw [h]
  refine ⟨hg, ?_, ?_, ?_, ?_, ?_⟩ <;> rw [hg] <;> rfl

/-- C4 witness: the spec end-to-end example, raw output `"not json"`. -/
theorem c4_witness :
    generate_with_schema "not json" = degraded_result "not json" ∧
    jsonGetKey (generate_with_schema "not json") "data_quality_issues" =
      some (Json.arr [Json.str ("LLM response was not valid JSON: " ++
        String.mk ("not json".data.take 500))]) := by
  have h := c4_degraded_synthesis "not json" (by rfl)
  exact ⟨h.1, h.2.2.2.2.2⟩

/-! ## C5 / C7 / C10 — report renderer (`ReportGenerator.generate_daily`,
`_format_risk_dashboard`, `_format_positioning_table`,
`_format_futures_levels`, `_format_trades`)

`RState` is the slice of `MarketState` the renderer reads, each field at the
type its upstream writer produces (synthesis collections as parsed JSON;
`risk_factors` and `data_quality_issues` as string lists per the schema;
`confidence` numeric). Paths that would raise in Python (formatting a
non-number, indexing an empty support list) are totalised with defaults and
are unreachable from any claim. -/

/-- Python truthiness of a parsed JSON value (NaN and Infinity are truthy). -/
def jsonTruthy : Json → Bool
  | Json.null => false
  | Json.bool b => b
  | Json.numInt n => n != 0
  | Json.numFloat q => q != 0
  | Json.nan => true
  | Json.inf _ => true
  | Json.str s => !s.data.isEmpty
  | Json.arr xs => !xs.isEmpty
  | Json.obj fs => !fs.isEmpty

/-- Python `isinstance(v, (int, float))` on a parsed value (bool is an int
subclass in Python). -/
def jsonIsNum : Json → Bool
  | Json.numInt _ => true
  | Json.numFloat _ => true
  | Json.nan => true
  | Json.inf _ => true
  | Json.bool _ => true
  | _ => false

/-- The numeric value where the code formats or compares a number; values
that would raise a Python TypeError are totalised to 0 (unreachable from the
claims). -/
def jsonToQ : Json → ℚ
  | Json.numInt n => (n : ℚ)
  | Json.numFloat q => q
  | Json.bool b => if b then 1 else 0
  | _ => 0

/-- Python float display for an exactly-represented short decimal: integral
floats print with a trailing `.0`, other terminating decimals print their
decimal digits. (IEEE shortest-roundtrip printing and exponent notation for
extreme magnitudes are outside the model.) -/
def pyFloatRepr (q : ℚ) : String :=
  if q.den = 1 then toString q.num ++ ".0"
  else
    match (List.range 40).find? (fun k => (q * (10 : ℚ) ^ k).den = 1) with
    | some k =>
      let m := (q * (10 : ℚ) ^ k).num.natAbs
      (if q < 0 then "-" else "") ++ toString (m / 10 ^ k) ++ "." ++
        padZeros (toString (m % 10 ^ k)) k
    | none => toString q.num ++ "/" ++ toString q.den

/-- A single-quote string (the quote Python `repr` uses around strings). -/
def squo : String := String.mk [Char.ofNat 39]

/-- Python `str()` of scalar values. -/
def pyScalarStr : Json → String
  | Json.null => "None"
  | Json.bool true => "True"
  | Json.bool false => "False"
  | Json.numInt n => toString n
  | Json.numFloat q => pyFloatRepr q
  | Json.nan => "nan"
  | Json.inf false => "inf"
  | Json.inf true => "-inf"
  | _ => ""

mutual

/-- Python `str()` of a parsed JSON value as interpolated by the renderer
f-strings; containers display through `repr` of their elements. -/
def pyStr : Json → String
  | Json.str s => s
  | Json.arr xs => "[" ++ pyReprList xs ++ "]"
  | Json.obj fs => "\x7b" ++ pyReprFields fs ++ "\x7d"
  | v => pyScalarStr v

/-- Python `repr()` of a parsed JSON value (string quoting simplified to
single quotes). -/
def pyRepr : Json → String
  | Json.str s => squo ++ s ++ squo
  | Json.arr xs => "[" ++ pyReprList xs ++ "]"
  | Json.obj fs => "\x7b" ++ pyReprFields fs ++ "\x7d"
  | v => pyScalarStr v

/-- Comma-separated element reprs of a list. -/
def pyReprList : List Json → String
  | [] => ""
  | [x] => pyRepr x
  | x :: y :: t => pyRepr x ++ ", " ++ pyReprList (y :: t)

/-- Comma-separated `key: value` reprs of dict fields. -/
def pyReprFields : List (String × Json) → String
  | [] => ""
  | [(k, v)] => squo ++ k ++ squo ++ ": " ++ pyRepr v
  | (k, v) :: p :: t => squo ++ k ++ squo ++ ": " ++ pyRepr v ++ ", " ++ pyReprFields (p :: t)

end

/-- Models `d.get(key, default)` on a modelled Python dict. -/
def dictGetD (d : List (String × Json)) (k : String) (dflt : Json) : Json :=
  match jsonObjGet d k with
  | some v => v
  | none => dflt

/-- Models `d.get(key)`: a missing key yields Python `None`, identical to a stored
JSON null (both display `None` and are falsy). -/
def dictGet (d : List (String × Json)) (k : String) : Json :=
  dictGetD d k Json.null

/-- A float-or-None field (`data.get(k)` read as a number). -/
def dictGetNum (d : List (String × Json)) (k : String) : Option ℚ :=
  match jsonObjGet d k with
  | some (Json.numInt n) => some ((n : Int) : ℚ)
  | some (Json.numFloat q) => some q
  | _ => none

/-- Python `for x in v` on a parsed value: lists yield elements, strings
their characters, dicts their keys; non-iterables (a Python TypeError) yield
nothing. -/
def pyIter : Json → List Json
  | Json.arr xs => xs
  | Json.str s => s.data.map fun c => Json.str (String.mk [c])
  | Json.obj fs => fs.map fun p => Json.str p.1
  | _ => []

/-- Python `str.title()` on ASCII text. -/
def pyTitleAux : List Char → Bool → List Char
  | [], _ => []
  | c :: t, prevAlpha =>
    (if c.isAlpha then (if prevAlpha then c.toLower else c.toUpper) else c) ::
      pyTitleAux t c.isAlpha

/-- Python `str.title()`. -/
def pyTitle (s : String) : String := String.mk (pyTitleAux s.data false)

/-- The slice of `MarketState` read by the renderer. -/
structure RState where
  executive_summary : String
  regime : List (String × Json)
  risk_indicators : List (String × Json)
  positioning : List (String × Json)
  positioning_analysis : List (String × Json)
  futures_positioning : List (String × Json)
  gamma_regime : List (String × Json)
  key_levels : List (String × Json)
  trades : List Json
  risk_factors : List String
  data_quality_issues : List String
  confidence : ℚ

/-- The dashboard series in source order. -/
def indicator_names : List (String × String) :=
  [("VIXCLS", "VIX"), ("BAMLC0A0CM", "IG Spread"), ("BAMLH0A0HYM2", "HY Spread"),
   ("T10Y2Y", "10Y-2Y"), ("T10Y3M", "10Y-3M")]

/-- Models `ReportGenerator._get_risk_signal`. -/
def get_risk_signal (series_id : String) (value change : Option ℚ) : String :=
  match value with
  | none => "-"
  | some v =>
    if series_id = "VIXCLS" then
      if v > 25 then "HIGH FEAR"
      else if v > 18 then "ELEVATED"
      else if v < 12 then "COMPLACENT"
      else "NORMAL"
    else if series_id = "BAMLC0A0CM" ∨ series_id = "BAMLH0A0HYM2" then
      if pytruthy change && decide (change.getD 0 > 1 / 10) then "WIDENING"
      else if pytruthy change && decide (change.getD 0 < -(1 : ℚ) / 10) then "TIGHTENING"
      else "STABLE"
    else if series_id = "T10Y2Y" ∨ series_id = "T10Y3M" then
      if v < 0 then "INVERTED"
      else if v < 1 / 4 then "FLAT"
      else "NORMAL"
    else "-"

/-- One row of `_format_risk_dashboard`. -/
def dashboard_row (state : RState) (series_id display_name : String) : String :=
  let data := dictGetD state.risk_indicators series_id (Json.obj [])
  let fields :=
    match data with
    | Json.obj fs => fs
    | _ => []
  if !jsonTruthy data || (jsonObjGet fields "error").isSome then
    "| " ++ display_name ++ " | N/A | N/A | N/A | - |"
  else
    let value := dictGetNum fields "value"
    let prior := dictGetNum fields "prior_value"
    let change := dictGetNum fields "change"
    let value_str :=
      match value with
      | some v => pyFormatFixed v 2
      | none => "N/A"
    let prior_str :=
      match prior with
      | some p => pyFormatFixed p 2
      | none => "N/A"
    let change_str :=
      match change with
      | some c => pyFormatSignedFixed c 2
      | none => "N/A"
    "| " ++ display_name ++ " | " ++ value_str ++ " | " ++ prior_str ++ " | " ++
      change_str ++ " | " ++ get_risk_signal series_id value change ++ " |"

/-- Models `ReportGenerator._format_risk_dashboard`. -/
def format_risk_dashboard (state : RState) : String :=
  String.intercalate "\n"
    (["| Indicator | Value | Prior | Change | Signal |",
      "|-----------|-------|-------|--------|--------|"] ++
     indicator_names.map fun pr => dashboard_row state pr.1 pr.2)

/-- One row of `_format_positioning_table` (for a dict-valued entry). -/
def positioning_row (asset : String) (fields : List (String × Json)) : String :=
  let net_pct :=
    if jsonTruthy (dictGet fields "net_pct") then dictGet fields "net_pct"
    else dictGetD fields "spec_net_pct" (Json.numInt 0)
  let percentile := dictGetD fields "percentile" (Json.str "-")
  let wow := dictGetD fields "wow_change" (Json.str "-")
  let signal :=
    if jsonTruthy (dictGet fields "signal") then dictGet fields "signal"
    else dictGetD fields "positioning" (Json.str "NEUTRAL")
  let net_pct_str :=
    if jsonIsNum net_pct then pyFormatFixed (jsonToQ net_pct) 1 ++ "%"
    else pyStr net_pct
  let percentile_str :=
    if jsonIsNum percentile then pyStr percentile ++ "th" else pyStr percentile
  "| " ++ asset ++ " | " ++ net_pct_str ++ " | " ++ percentile_str ++ " | " ++
    pyStr wow ++ " | " ++ pyStr signal ++ " |"

/-- Models `ReportGenerator._format_positioning_table`:
`state.positioning_analysis or state.positioning`, dict-valued entries only,
with a placeholder row when nothing rendered. -/
def format_positioning_table (state : RState) : String :=
  let positioning :=
    if state.positioning_analysis.isEmpty then state.positioning
    else state.positioning_analysis
  let rows := positioning.filterMap fun pr =>
    match pr.2 with
    | Json.obj fields => some (positioning_row pr.1 fields)
    | _ => none
  String.intercalate "\n"
    (["| Asset | Net % OI | Percentile | WoW Change | Signal |",
      "|-------|----------|------------|------------|--------|"] ++
     (if rows.isEmpty then ["| No positioning data available | - | - | - | - |"]
      else rows))

/-- Models `v[0]` on a parsed list (empty or non-list, a Python error, totalised to
null). -/
def jsonIndexFirst : Json → Json
  | Json.arr (x :: _) => x
  | _ => Json.null

/-- Models `v[-1]` on a parsed list (same totalisation). -/
def jsonIndexLast : Json → Json
  | Json.arr xs => xs.getLast?.getD Json.null
  | _ => Json.null

/-- Models `ReportGenerator._format_futures_levels`. -/
def format_futures_levels (state : RState) : String :=
  let gamma := state.gamma_regime
  let gamma_regime_disp := pyStr (dictGetD gamma "gamma_regime" (Json.str "NEUTRAL"))
  let sput_risk := pyStr (dictGetD gamma "sput_risk" (Json.str "LOW"))
  let key_levels := state.key_levels
  let es_current := jsonToQ (dictGetD key_levels "ES_current"
    (jsonIndexFirst (dictGetD key_levels "ES_support" (Json.arr [Json.numInt 5800]))))
  let es_support := dictGetD key_levels "ES_support"
    (Json.arr [Json.numInt 5800, Json.numInt 5750, Json.numInt 5700])
  let es_resistance := dictGetD key_levels "ES_resistance"
    (Json.arr [Json.numInt 5900, Json.numInt 5950, Json.numInt 6000])
  let zn_current := jsonToQ (dictGetD key_levels "ZN_current"
    (jsonIndexFirst (dictGetD key_levels "ZN_support" (Json.arr [Json.numInt 108]))))
  let zn_support := dictGetD key_levels "ZN_support"
    (Json.arr [Json.numFloat 108, Json.numFloat 106, Json.numFloat 104])
  let zn_resistance := dictGetD key_levels "ZN_resistance"
    (Json.arr [Json.numFloat 112, Json.numFloat 114, Json.numFloat 116])
  let vix_current := jsonToQ (dictGetD key_levels "VIX_current" (Json.numFloat (31 / 2)))
  let futures_pos := state.futures_positioning
  let equity_sentiment :=
    pyStr (dictGetD futures_pos "equity_index_sentiment" (Json.str "NEUTRAL"))
  let treasury_sentiment :=
    if charsContain
        (pyStr (dictGetD futures_pos "Treasury_positioning" (Json.str ""))).data
        "LONG".data
    then "BEARISH" else "NEUTRAL"
  let es_support_str :=
    pyStr (jsonIndexFirst es_support) ++ "-" ++ pyStr (jsonIndexLast es_support)
  let es_resistance_str :=
    pyStr (jsonIndexFirst es_resistance) ++ "-" ++ pyStr (jsonIndexLast es_resistance)
  let zn_support_str :=
    pyStr (jsonIndexFirst zn_support) ++ "-" ++ pyStr (jsonIndexLast zn_support)
  let zn_resistance_str :=
    pyStr (jsonIndexFirst zn_resistance) ++ "-" ++ pyStr (jsonIndexLast zn_resistance)
  let seasonality := dictGetD futures_pos "seasonality" (Json.obj [])
  let seasonality_lines :=
    if jsonTruthy seasonality then
      "**Seasonality:**" ::
        List.map (fun pr : String × Json => "- " ++ pyTitle pr.1 ++ ": " ++ pyStr pr.2)
          (match seasonality with
           | Json.obj fs => fs
           | _ => [])
    else []
  String.intercalate "\n"
    (["**Gamma Regime:** " ++ gamma_regime_disp ++ "  |  **SPUT Risk:** " ++ sput_risk,
      "",
      "| Contract | Current | Support | Resistance | Sentiment |",
      "|----------|---------|---------|------------|-----------|",
      "| ES (S&P 500) | " ++ pyFormatFixed es_current 0 ++ " | " ++ es_support_str ++
        " | " ++ es_resistance_str ++ " | " ++ equity_sentiment ++ " |",
      "| ZN (10Y Note) | " ++ pyFormatFixed zn_current 1 ++ " | " ++ zn_support_str ++
        " | " ++ zn_resistance_str ++ " | " ++ treasury_sentiment ++ " |",
      "| VIX | " ++ pyFormatFixed vix_current 1 ++ " | 14.0 | 22.0 | " ++
        (if vix_current > 18 then "ELEVATED" else "NORMAL") ++ " |",
      ""] ++ seasonality_lines)

/-- Models `REQUIRED_TRADE_FIELDS` in source order. -/
def required_trade_fields : List String := ["name", "instrument", "entry", "stop", "target"]

/-- Models `isinstance(trade, dict)`. -/
def isDictTrade : Json → Bool
  | Json.obj _ => true
  | _ => false

/-- Models `trade.get(f)` on a trade (a missing key is Python `None`). -/
def tradeGet (t : Json) (k : String) : Json :=
  match t with
  | Json.obj fs => dictGet fs k
  | _ => Json.null

/-- Models `trade.get(f, default)` on a trade. -/
def tradeGetD (t : Json) (k : String) (dflt : Json) : Json :=
  match t with
  | Json.obj fs => dictGetD fs k dflt
  | _ => dflt

/-- Models the comprehension `[f for f in REQUIRED_TRADE_FIELDS if not trade.get(f)]`. -/
def missing_fields (t : Json) : List String :=
  required_trade_fields.filter fun f => !jsonTruthy (tradeGet t f)

/-- The block of lines `_format_trades` emits for one rendered trade, with
its display ordinal. -/
def trade_block (ordinal : Nat) (trade : Json) : List String :=
  ["### " ++ toString ordinal ++ ". " ++
     pyStr (tradeGetD trade "name" (Json.str "Unnamed Trade")),
   "",
   "| Field | Value |",
   "|-------|-------|",
   "| Instrument | " ++ pyStr (tradeGetD trade "instrument" (Json.str "N/A")) ++ " |",
   "| Direction | " ++ pyStr (tradeGetD trade "direction" (Json.str "N/A")) ++ " |",
   "| Entry | " ++ pyStr (tradeGetD trade "entry" (Json.str "N/A")) ++ " |",
   "| Stop | " ++ pyStr (tradeGetD trade "stop" (Json.str "N/A")) ++ " |",
   "| Target | " ++ pyStr (tradeGetD trade "target" (Json.str "N/A")) ++ " |",
   "| Size | " ++ pyStr (tradeGetD trade "size_pct" (Json.str "N/A")) ++ "% NAV |",
   "| Timeframe | " ++ pyStr (tradeGetD trade "timeframe" (Json.str "N/A")) ++ " |",
   "| Conviction | " ++ pyStr (tradeGetD trade "conviction" (Json.str "N/A")) ++ "/5 |",
   "",
   "**Catalyst:** " ++ pyStr (tradeGetD trade "catalyst" (Json.str "Not specified")),
   "",
   "**Rationale:** " ++ pyStr (tradeGetD trade "rationale" (Json.str "Not specified")),
   ""]

/-- The loop of `_format_trades`: skip non-dicts and trades with missing
required fields (no ordinal consumed); render the rest with the running valid
count. -/
def trades_lines : List Json → Nat → List String
  | [], _ => []
  | t :: rest, count =>
    if !isDictTrade t then trades_lines rest count
    else if !(missing_fields t).isEmpty then trades_lines rest count
    else trade_block (count + 1) t ++ trades_lines rest (count + 1)

/-- Models `ReportGenerator._format_trades`. -/
def format_trades (trades : List Json) : String :=
  let lines := trades_lines trades 0
  if lines.isEmpty then "No valid trade ideas generated."
  else String.intercalate "\n" lines

/-- Spec-side validity: a trade renders exactly when it is a dict whose five
required fields are all present and truthy (for the schema string fields,
truthy means non-empty). -/
def valid_trade (t : Json) : Bool := isDictTrade t && (missing_fields t).isEmpty

/-- Number a list of valid trades consecutively starting above `n`. -/
def number_blocks (n : Nat) : List Json → List String
  | [] => []
  | t :: rest => trade_block (n + 1) t ++ number_blocks (n + 1) rest

/-- Spec-side `_format_trades`: filter to the valid trades, then number them
1..k in input order. -/
def format_trades_spec (trades : List Json) : String :=
  let vs := trades.filter valid_trade
  if vs.isEmpty then "No valid trade ideas generated."
  else String.intercalate "\n" (number_blocks 0 vs)

/-- The body lines of the `drivers` loop. -/
def driver_lines (regime : List (String × Json)) : List String :=
  (pyIter (dictGetD regime "drivers" (Json.arr []))).map fun d => "- " ++ pyStr d

/-- Models `enumerate(xs, i)` rendered as `"{i}. {x}"` lines. -/
def numberLines (i : Nat) : List String → List String
  | [] => []
  | x :: xs => (toString i ++ ". " ++ x) :: numberLines (i + 1) xs

/-- The falsifier section (emitted only when `falsifiers` is truthy). -/
def falsifier_lines (regime : List (String × Json)) : List String :=
  let falsifiers := dictGetD regime "falsifiers" (Json.arr [])
  if jsonTruthy falsifiers then
    ["", "---", "", "## REGIME FALSIFIERS"] ++
      (pyIter falsifiers).map fun f => "- " ++ pyStr f
  else []

/-- The data-quality line. -/
def data_quality_line (issues : List String) : String :=
  if issues.isEmpty then "*Data Quality Issues: None*"
  else "*Data Quality Issues: " ++ String.intercalate "; " issues ++ "*"

/-- The parts of `generate_daily` up to (excluding) the RISK FACTORS header:
the two clock-bearing header lines, the executive summary and regime block,
and the dashboard, positioning, futures and trade sections. `date_str` and
`timestamp` model the two `datetime.now().strftime` reads. -/
def parts_before_risk (date_str timestamp : String) (state : RState) : List String :=
  ("# Daily Macro Brief - " ++ date_str) ::
  ("*Generated " ++ timestamp ++ " ET | Data as of market close*") ::
  (["",
    "## EXECUTIVE SUMMARY",
    (if state.executive_summary.data.isEmpty then "Analysis pending."
     else state.executive_summary),
    "",
    "**Regime: " ++ pyStr (dictGetD state.regime "label" (Json.str "TRANSITIONAL")) ++ "**",
    ""] ++
   driver_lines state.regime ++
   ["", "---", "", "## RISK DASHBOARD"] ++ [format_risk_dashboard state] ++
   ["", "---", "", "## POSITIONING (COT)"] ++ [format_positioning_table state] ++
   ["", "---", "", "## FUTURES TRADING LEVELS"] ++ [format_futures_levels state] ++
   ["", "---", "", "## TRADE IDEAS"] ++ [format_trades state.trades] ++
   ["", "---", ""])

/-- The parts of `generate_daily` after the risk-factor lines: falsifiers,
confidence, data quality, footer. -/
def parts_after_risk (state : RState) : List String :=
  falsifier_lines state.regime ++
  ["", "---", "",
   "**Confidence: " ++ pyFormatFixed (state.confidence * 10) 1 ++ "/10**",
   ""] ++
  [data_quality_line state.data_quality_issues] ++
  ["", "---", "*Report generated by Oracle - Macro Research Agent*"]

/-- The full `report_parts` list `generate_daily` builds (the split into
before/risk/after mirrors the successive `extend` calls; the rendered string
is their concatenation joined with newlines). -/
def report_parts (date_str timestamp : String) (state : RState) : List String :=
  parts_before_risk date_str timestamp state ++ ["## RISK FACTORS"] ++
    numberLines 1 (state.risk_factors.take 5) ++ parts_after_risk state

/-- Models `ReportGenerator.generate_daily` rendered markdown (the `_save_report`
file write is an external side effect). -/
def generate_daily (date_str timestamp : String) (state : RState) : String :=
  String.intercalate "\n" (report_parts date_str timestamp state)

/-- The `_format_trades` loop equals filtering to the valid trades and
numbering them consecutively from above `count`. -/
theorem trades_lines_eq :
    ∀ (trades : List Json) (count : Nat),
      trades_lines trades count = number_blocks count (trades.filter valid_trade) := by
  intro trades
  induction trades with
  | nil => intro count; rfl
  | cons t rest ih =>
    intro count
    rw [List.filter_cons]
    by_cases hd : isDictTrade t = true
    · by_cases hm : (missing_fields t).isEmpty = true
      · have hv : valid_trade t = true := by
          rw [valid_trade, hd, hm]
          rfl
        have h1 : trades_lines (t :: rest) count =
            trade_block (count + 1) t ++ trades_lines rest (count + 1) := by
          simp only [trades_lines, hd, hm, Bool.not_true, Bool.false_eq_true,
            if_false]
        rw [h1, if_pos hv, number_blocks, ih]
      · have hv : ¬ valid_trade t = true := by
          rw [valid_trade, hd]
          simpa using hm
        have h1 : trades_lines (t :: rest) count = trades_lines rest count := by
          have hm' : (missing_fields t).isEmpty = false := by
            simpa using hm
          simp only [trades_lines, hd, hm', Bool.not_true, Bool.not_false,
            Bool.false_eq_true, if_false, if_true]
        rw [h1, if_neg hv, ih]
    · have hv : ¬ valid_trade t = true := by
        rw [valid_trade]
        simp only [Bool.and_eq_true]
        intro h
        exact hd h.1
      have hd' : isDictTrade t = false := by
        simpa using hd
      have h1 : trades_lines (t :: rest) count = trades_lines rest count := by
        simp only [trades_lines, hd', Bool.not_false, if_true]
      rw [h1, if_neg hv, ih]

/-- Numbering valid trades yields lines exactly when there are trades. -/
theorem number_blocks_isEmpty (n : Nat) (vs : List Json) :
    (number_blocks n vs).isEmpty = vs.isEmpty := by
  cases vs with
  | nil => rfl
  | cons t rest => simp [number_blocks, trade_block]

/-- Theorem that `_format_trades` equals its filter-then-enumerate specification. -/
theorem format_trades_eq_spec (trades : List Json) :
    format_trades trades = format_trades_spec trades := by
  simp only [format_trades, format_trades_spec]
  rw [trades_lines_eq trades 0, number_blocks_isEmpty]

/-- A complete trade (all five required fields non-empty). -/
def validTrade1 : Json :=
  Json.obj [("name", Json.str "Long ES on Dip"), ("instrument", Json.str "ES"),
    ("direction", Json.str "LONG"), ("entry", Json.str "5800"),
    ("stop", Json.str "5750"), ("target", Json.str "5900")]

/-- A trade missing its `stop` field. -/
def missingStopTrade : Json :=
  Json.obj [("name", Json.str "Short NQ"), ("instrument", Json.str "NQ"),
    ("direction", Json.str "SHORT"), ("entry", Json.str "20000"),
    ("target", Json.str "19000")]

/-- C7: a trade is rendered only if each required field (name, instrument,
entry, stop, target) is present and truthy — for the schema string fields,
non-empty; an incomplete idea is skipped and consumes no display ordinal, so
ordinals run 1..k over the rendered ideas in input order (`_format_trades`
equals filter-then-enumerate); concretely, a valid trade after a trade
missing `stop` renders as it would alone, numbered 1. -/
theorem c7_trade_rendering :
    (∀ trades : List Json, format_trades trades = format_trades_spec trades)
  ∧ format_trades [missingStopTrade, validTrade1] = format_trades [validTrade1]
  ∧ (trades_lines [missingStopTrade, validTrade1] 0).head? =
      some "### 1. Long ES on Dip"
  ∧ (∀ t : Json, valid_trade t = true →
      ∀ f, f ∈ required_trade_fields → jsonTruthy (tradeGet t f) = true) := by
  refine ⟨format_trades_eq_spec, by rfl, by rfl, ?_⟩
  intro t hv f hf
  rw [valid_trade, Bool.and_eq_true] at hv
  obtain ⟨hd, hm⟩ := hv
  rw [List.isEmpty_iff] at hm
  rw [missing_fields] at hm
  have h := List.filter_eq_nil_iff.mp hm f hf
  simpa using h

/-- C7 witness: the skip example and the required-field fact instantiated on
the concrete valid trade. -/
theorem c7_witness :
    format_trades [missingStopTrade, validTrade1] = format_trades [validTrade1] ∧
      jsonTruthy (tradeGet validTrade1 "stop") = true := by
  have h := c7_trade_rendering
  exact ⟨h.2.1, h.2.2.2 validTrade1 (by decide) "stop" (by decide)⟩

/-- A minimal aggregate state: all collections empty, default confidence. -/
def miniState : RState :=
  { executive_summary := "", regime := [], risk_indicators := [], positioning := [],
    positioning_analysis := [], futures_positioning := [], gamma_regime := [],
    key_levels := [], trades := [], risk_factors := [], data_quality_issues := [],
    confidence := 1 / 2 }

set_option maxHeartbeats 4000000 in
/-- C5 counterexample: over the same aggregate state, renders one second apart
differ, because `generate_daily` embeds `datetime.now()` in the two header
lines — the rendered string is not a function of the state alone. -/
theorem c5_counterexample :
    generate_daily "January 01, 2025" "10:00:00" miniState ≠
      generate_daily "January 01, 2025" "10:00:01" miniState := by
  with_unfolding_all decide

/-- C5 (amended): the renderer is deterministic in its input state AND the
render-time clock: the clock determines exactly the first two header lines
(identical clock strings give identical headers whatever the state), and
every part after them is a function of the state alone (identical state gives
an identical remainder whatever the clock). -/
theorem c5_renderer_deterministic_given_clock :
    (∀ (d1 t1 d2 t2 : String) (s : RState),
        (report_parts d1 t1 s).drop 2 = (report_parts d2 t2 s).drop 2)
  ∧ (∀ (d t : String) (s1 s2 : RState),
        (report_parts d t s1).take 2 = (report_parts d t s2).take 2) :=
  ⟨fun _ _ _ _ _ => rfl, fun _ _ _ _ => rfl⟩

/-- C10: the rendered report contains at most the first five risk factors,
numbered from 1 in input order: truncating the list to its first five entries
leaves the rendered parts unchanged, and the RISK FACTORS section is exactly
the header followed by the numbered first-five lines. -/
theorem c10_risk_factors_top5 :
    (∀ (d t : String) (s : RState),
        report_parts d t s =
          report_parts d t { s with risk_factors := s.risk_factors.take 5 })
  ∧ (∀ (d t : String) (s : RState),
        report_parts d t s =
          parts_before_risk d t s ++ ["## RISK FACTORS"] ++
            numberLines 1 (s.risk_factors.take 5) ++ parts_after_risk s) := by
  constructor
  · intro d t s
    have hb : parts_before_risk d t { s with risk_factors := s.risk_factors.take 5 } =
        parts_before_risk d t s := rfl
    have ha : parts_after_risk { s with risk_factors := s.risk_factors.take 5 } =
        parts_after_risk s := rfl
    have h : ({ s with risk_factors := s.risk_factors.take 5 } : RState).risk_factors.take 5 =
        s.risk_factors.take 5 := by
      show (s.risk_factors.take 5).take 5 = s.risk_factors.take 5
      rw [List.take_take]
      norm_num
    unfold report_parts
    rw [hb, ha, h]
  · intro d t s
    rfl

/-- C3 witness: the CRISIS conjunct of the classifier theorem instantiated at
a concrete remainder of the inputs. -/
theorem c3_witness :
    determine_regime (some 35) (some 6) (some (-(3 : ℚ) / 5)) none none none =
      "CRISIS - VIX elevated, risk-off dominant" :=
  c3_macro_regime_classifier.1 none none none
